import Mathlib

/-!
Shallow embedding of the service state & property synchronization engine of
`src/connman_service.c` (webos-connman-adapter), together with theorems that
check the natural-language specification against the code.

Modelling conventions:
* C `unsigned char` buffers become `List Nat` (each element `< 256` at call
  sites); C `unsigned int` masks become `Nat` with 32-bit complement made
  explicit; C strings become `String`, nullable C strings `Option String`.
* The `connman_service_t` struct is mirrored by `Service`, restricted to the
  fields the modelled functions read or write.  GLib variants are mirrored by
  the small tagged union `GV`.
* Remote D-Bus calls are not performed; instead each façade operation returns
  the list of `RemoteCall`s it would issue, and takes the remote outcome
  (`Option String` error / `Except` reply) as an explicit argument.
* `MULTIPLE_ROUTING_TABLE` is treated as undefined (the routing `ip rule`
  shell commands and the process-global diagnostics flag touch no field of
  the service struct and are external collaborators in the spec).
-/

/-- `#define Bit1 0x02` -/
def Bit1 : Nat := 0x02

/-- `#define Bit0 0x01` -/
def Bit0 : Nat := 0x01

/-- Modelled from the spec (the header defining the change categories is not
under `src/`): the change mask is a bitset over the two categories
{Status, FindNetworks}; they are modelled as two distinct single bits. -/
def CONNMAN_SERVICE_CHANGE_CATEGORY_GETSTATUS : Nat := 0x01

/-- Modelled from the spec (header not under `src/`): the FindNetworks
change category bit, distinct from the GetStatus bit. -/
def CONNMAN_SERVICE_CHANGE_CATEGORY_FINDNETWORKS : Nat := 0x02

/-- The WFD capability fields of `struct peer` written by
`p2p_parse_wfd_dev_info`. -/
structure Peer where
  wfd_enabled : Bool := false
  wfd_devtype : Nat := 0
  wfd_sessionavail : Nat := 0
  wfd_cpsupport : Nat := 0
  wfd_rtspport : Nat := 0
  deriving Repr, DecidableEq

/-- One decoded entry of the BSS list (`bssinfo_t`): bssid is at most 17
characters (`g_strlcpy(bss_info.bssid, bss, 18)`). -/
structure Bssinfo where
  bssid : String
  signal : Int
  frequency : Int
  deriving Repr, DecidableEq

/-- `ipv4info_t`: nullable string fields plus the prefix length. -/
structure Ipv4Data where
  method : Option String := none
  address : Option String := none
  netmask : Option String := none
  gateway : Option String := none
  prefix_len : Int := 0
  deriving Repr, DecidableEq

/-- `ipv6info_t`: nullable string fields plus the prefix length. -/
structure Ipv6Data where
  method : Option String := none
  address : Option String := none
  gateway : Option String := none
  prefix_length : Int := 0
  deriving Repr, DecidableEq

/-- The `ipinfo` aggregate of `connman_service_t`. -/
structure Ipinfo where
  iface : Option String := none
  ipv4 : Ipv4Data := {}
  ipv6 : Ipv6Data := {}
  dns : Option (List String) := none
  deriving Repr, DecidableEq

/-- The `proxyinfo` aggregate of `connman_service_t` (`proxyinfo_t`). -/
structure Proxyinfo where
  method : Option String := none
  url : Option String := none
  servers : Option (List String) := none
  excludes : Option (List String) := none
  deriving Repr, DecidableEq

/-- A `GCancellable` held in `service->cancellable`: an identity (so that
release/leak can be observed) plus its cancelled flag. -/
structure Token where
  id : Nat
  cancelled : Bool
  deriving Repr, DecidableEq

/-- Mirror of the fields of `connman_service_t` that the modelled functions
read or write.  `state` starts out NULL (`g_new0`), hence `Option String`. -/
structure Service where
  state : Option String := none
  disconnecting : Bool := false
  change_mask : Nat := 0
  has_property_change_fn : Bool := false
  cancellable : Option Token := none
  peer : Peer := {}
  bss : Option (List Bssinfo) := none
  ipinfo : Ipinfo := {}
  proxyinfo : Proxyinfo := {}
  deriving Repr, DecidableEq

/-! ## Change-Tracking Notifier (`connman_service_{set,unset,is}_changed`) -/

/-- C `~category` on a 32-bit `unsigned int`: one's complement, i.e. XOR with
all ones. -/
def uint32_compl (category : Nat) : Nat := (2 ^ 32 - 1) ^^^ category

/-- `service->change_mask |= category;` -/
def connman_service_set_changed (service : Service) (category : Nat) : Service :=
  { service with change_mask := service.change_mask ||| category }

/-- `service->change_mask &= ~category;` -/
def connman_service_unset_changed (service : Service) (category : Nat) : Service :=
  { service with change_mask := service.change_mask &&& uint32_compl category }

/-- `return (service->change_mask & category);` — truthiness is the non-zero
test of the bitwise AND. -/
def connman_service_is_changed (service : Service) (category : Nat) : Bool :=
  service.change_mask &&& category != 0

/-! ## Peer Capability Parser (`p2p_parse_wfd_dev_info`) -/

/-- `p2p_parse_wfd_dev_info(unsigned char *wfd_subelems, int len, struct peer*)`.
The byte buffer is `wfd_subelems`, its `len` is the list length. -/
def p2p_parse_wfd_dev_info (wfd_subelems : List Nat) (peer : Peer) : Peer :=
  if wfd_subelems.length < 9 then peer
  else if wfd_subelems.getD 0 0 ≠ 0x00 then peer
  -- NOTE: the source really tests `wfd_subelems[1] != 0x00 && wfd_subelems[2] != 0x06`
  else if wfd_subelems.getD 1 0 ≠ 0x00 ∧ wfd_subelems.getD 2 0 ≠ 0x06 then peer
  else
    { peer with
      wfd_enabled := true
      wfd_devtype := wfd_subelems.getD 4 0 &&& (Bit0 ||| Bit1)
      wfd_sessionavail := (wfd_subelems.getD 4 0 >>> 4) &&& (Bit0 ||| Bit1)
      wfd_cpsupport := wfd_subelems.getD 3 0 &&& Bit0
      wfd_rtspport := (wfd_subelems.getD 5 0 <<< 8) + wfd_subelems.getD 6 0 }

/-! ## Helper bit lemmas for the change-mask bitset -/

theorem land_lor_self (m c : Nat) : (m ||| c) &&& c = c := by
  apply Nat.eq_of_testBit_eq
  intro i
  simp only [Nat.testBit_and, Nat.testBit_or]
  cases c.testBit i <;> simp

theorem land_uint32_compl_land (x c : Nat) (hc : c < 2 ^ 32) :
    x &&& uint32_compl c &&& c = 0 := by
  apply Nat.eq_of_testBit_eq
  intro i
  simp only [uint32_compl, Nat.testBit_and, Nat.testBit_xor,
    Nat.testBit_two_pow_sub_one, Nat.zero_testBit]
  cases hb : c.testBit i
  · simp
  · rcases Nat.lt_or_ge i 32 with hi | hi
    · simp [hi, hb]
    · have : c < 2 ^ i :=
        Nat.lt_of_lt_of_le hc (Nat.pow_le_pow_right (by omega) hi)
      rw [Nat.testBit_lt_two_pow this] at hb
      exact absurd hb (by simp)

/-- **C9.** The change-mask operations form a correct bitset: for every mask
and every non-empty category set `c` (a non-zero 32-bit value), `IsChanged`
after `SetChanged` on `c` is true, and `IsChanged` after
`UnsetChanged (SetChanged m c) c` is false.  `SetChanged` is bitwise OR,
`UnsetChanged` is bitwise AND-NOT (AND with the 32-bit complement),
`IsChanged` is a non-zero test of the bitwise AND. -/
theorem change_mask_bitset_laws (s : Service) (c : Nat)
    (hc0 : c ≠ 0) (hc : c < 2 ^ 32) :
    connman_service_is_changed (connman_service_set_changed s c) c = true ∧
    connman_service_is_changed
      (connman_service_unset_changed (connman_service_set_changed s c) c) c = false := by
  constructor
  · simp only [connman_service_is_changed, connman_service_set_changed,
      land_lor_self, bne_iff_ne, ne_eq]
    exact hc0
  · simp only [connman_service_is_changed, connman_service_unset_changed,
      connman_service_set_changed,
      land_uint32_compl_land (s.change_mask ||| c) c hc]
    simp

/-- Witness for C9 at a concrete mask and category. -/
theorem change_mask_bitset_laws_witness :
    connman_service_is_changed (connman_service_set_changed {} 2) 2 = true ∧
    connman_service_is_changed
      (connman_service_unset_changed (connman_service_set_changed {} 2) 2) 2 = false :=
  change_mask_bitset_laws {} 2 (by decide) (by norm_num)

/-! ## C1: the WFD device-information length-field check -/

/-- **C1.** The claim (and the comment in the source: "Length field is 6 for
WFD Device Information") requires the parser to leave all capability fields
unchanged unless `byte[1] == 0x00 AND byte[2] == 0x06`.  The code instead
returns early only when `byte[1] != 0x00 && byte[2] != 0x06`, so a buffer
whose length field is `0x0007` (`byte[1] = 0x00`, `byte[2] = 0x07`) is
accepted: all capability fields are written even though the length-field
check of the claim fails. -/
theorem p2p_parse_wfd_dev_info_length_check_divergence :
    p2p_parse_wfd_dev_info [0x00, 0x00, 0x07, 0x01, 0x45, 0x01, 0xBB, 0x00, 0x00] {}
      = { wfd_enabled := true, wfd_devtype := 0x01, wfd_sessionavail := 0x00,
          wfd_cpsupport := 0x01, wfd_rtspport := 0x01BB } ∧
    ({} : Peer).wfd_enabled = false := by
  constructor
  · rfl
  · rfl

/-! ## State Transition Engine -/

/-- The `CONNMAN_SERVICE_STATE_*` enumeration. -/
inductive ConnmanServiceState where
  | idle
  | association
  | configuration
  | ready
  | online
  | disconnect
  | failure
  deriving Repr, DecidableEq

/-- `connman_service_get_state(const gchar *state)`: the result starts out as
`CONNMAN_SERVICE_STATE_IDLE`; a NULL string returns it at once, the seven
wire strings select their enum value, anything else falls through to IDLE. -/
def connman_service_get_state (state : Option String) : ConnmanServiceState :=
  match state with
  | none => .idle
  | some s =>
      if s = "idle" then .idle
      else if s = "association" then .association
      else if s = "configuration" then .configuration
      else if s = "ready" then .ready
      else if s = "online" then .online
      else if s = "disconnect" then .disconnect
      else if s = "failure" then .failure
      else .idle

/-- `connman_service_advance_state(service, v)` where `v` carries the new
state string.  Returns the updated service together with the property-change
callback invocations `(name, value)` it performs.  The diagnostics
side-channel at the end of the function only reads `service->state` and
toggles a process-global flag / external technology object, and the
`MULTIPLE_ROUTING_TABLE` block is compiled out; neither touches the fields
modelled here. -/
def connman_service_advance_state (service : Option Service) (new_state : String) :
    Option Service × List (String × String) :=
  match service with
  | none => (none, [])
  | some svc =>
      if svc.disconnecting = true ∧ new_state ≠ "ready" ∧ new_state ≠ "online" then
        (some { svc with disconnecting := false }, [])
      else if svc.state ≠ some new_state then
        let svc := connman_service_set_changed { svc with state := some new_state }
          (CONNMAN_SERVICE_CHANGE_CATEGORY_GETSTATUS |||
           CONNMAN_SERVICE_CHANGE_CATEGORY_FINDNETWORKS)
        (some svc, if svc.has_property_change_fn then [("State", new_state)] else [])
      else (some svc, [])

/-- **C2.** If `disconnecting` is true and the new state string is neither
"ready" nor "online", the state change only clears `disconnecting`: the
`state` field is unchanged, no change-mask bit is set, and no
property-change callback is invoked. -/
theorem advance_state_suppression (svc : Service) (new_state : String)
    (hd : svc.disconnecting = true)
    (h1 : new_state ≠ "ready") (h2 : new_state ≠ "online") :
    connman_service_advance_state (some svc) new_state
      = (some { svc with disconnecting := false }, []) := by
  simp [connman_service_advance_state, hd, h1, h2]

/-- Witness for C2: a disconnecting service receiving "idle" keeps its state
and mask and emits nothing. -/
theorem advance_state_suppression_witness :
    connman_service_advance_state
        (some { state := some "ready", disconnecting := true,
                has_property_change_fn := true })
        "idle"
      = (some { state := some "ready", disconnecting := false,
                has_property_change_fn := true }, []) :=
  advance_state_suppression _ "idle" rfl (by decide) (by decide)

/-- **C6.** When the suppression rule of C2 does not apply: a state change to
the current state is a no-op, while a change to a different string (with
`disconnecting` false) stores the new string, sets both the GetStatus and
FindNetworks change-mask bits, and invokes the registered property-change
callback with `("State", value)`. -/
theorem advance_state_transition (svc : Service) (new_state : String) :
    (¬(svc.disconnecting = true ∧ new_state ≠ "ready" ∧ new_state ≠ "online") →
      svc.state = some new_state →
      connman_service_advance_state (some svc) new_state = (some svc, [])) ∧
    (svc.disconnecting = false → svc.state ≠ some new_state →
      svc.has_property_change_fn = true →
      connman_service_advance_state (some svc) new_state
        = (some { svc with
                  state := some new_state,
                  change_mask := svc.change_mask |||
                    (CONNMAN_SERVICE_CHANGE_CATEGORY_GETSTATUS |||
                     CONNMAN_SERVICE_CHANGE_CATEGORY_FINDNETWORKS) },
           [("State", new_state)])) := by
  constructor
  · intro hno heq
    simp [connman_service_advance_state, hno, heq]
  · intro hd hne hfn
    simp [connman_service_advance_state, hd, hne,
      connman_service_set_changed, hfn]

/-- Witness for C6: (a) pushing "online" onto a service already in "online"
is a no-op; (b) pushing "ready" onto an "idle" service updates the state,
sets both mask bits and fires the callback. -/
theorem advance_state_transition_witness :
    connman_service_advance_state
        (some { state := some "online", has_property_change_fn := true }) "online"
      = (some { state := some "online", has_property_change_fn := true }, []) ∧
    connman_service_advance_state
        (some { state := some "idle", has_property_change_fn := true }) "ready"
      = (some { state := some "ready", change_mask := 3,
                has_property_change_fn := true }, [("State", "ready")]) := by
  constructor
  · exact (advance_state_transition _ "online").1 (by decide) rfl
  · exact (advance_state_transition
      { state := some "idle", has_property_change_fn := true } "ready").2
        rfl (by decide) rfl

/-- **C7.** `connman_service_get_state` always yields one of the seven
enumerated values; each of the seven wire strings maps to its canonical
value, and every unrecognized string (and NULL) maps to Idle. -/
theorem get_state_seven_values :
    (∀ t : Option String, connman_service_get_state t ∈
      [ConnmanServiceState.idle, .association, .configuration, .ready,
       .online, .disconnect, .failure]) ∧
    connman_service_get_state (some "idle") = .idle ∧
    connman_service_get_state (some "association") = .association ∧
    connman_service_get_state (some "configuration") = .configuration ∧
    connman_service_get_state (some "ready") = .ready ∧
    connman_service_get_state (some "online") = .online ∧
    connman_service_get_state (some "disconnect") = .disconnect ∧
    connman_service_get_state (some "failure") = .failure ∧
    connman_service_get_state none = .idle ∧
    (∀ s : String,
      s ∉ (["idle", "association", "configuration", "ready", "online",
            "disconnect", "failure"] : List String) →
      connman_service_get_state (some s) = .idle) := by
  refine ⟨?_, rfl, rfl, rfl, rfl, rfl, rfl, rfl, rfl, ?_⟩
  · intro t
    cases connman_service_get_state t <;> decide
  · intro s hs
    simp only [List.mem_cons, List.not_mem_nil, or_false, not_or] at hs
    obtain ⟨n1, n2, n3, n4, n5, n6, n7⟩ := hs
    simp [connman_service_get_state, n1, n2, n3, n4, n5, n6, n7]

/-- Witness for C7: an unrecognized wire string maps to Idle. -/
theorem get_state_seven_values_witness :
    connman_service_get_state (some "bogus") = .idle :=
  get_state_seven_values.2.2.2.2.2.2.2.2.2 "bogus" (by decide)

/-! ## Remote Command Façade: the asynchronous connect path -/

/-- The remote D-Bus calls an operation would issue. -/
inductive RemoteCall where
  | connectCall
  | peerConnectCall
  | disconnectCall
  | peerDisconnectCall
  | removeCall
  | rejectPeerCall
  | setDefaultCall
  | setPropertyCall (name : String) (keys : List String)
  | getPropertiesCall
  deriving Repr, DecidableEq

/-- Substring search on character lists, used to model GLib `g_strrstr`
(whose result is non-NULL exactly when the needle occurs in the haystack). -/
def chars_contains (hay needle : List Char) : Bool :=
  match hay with
  | [] => needle.isEmpty
  | _ :: t => needle.isPrefixOf hay || chars_contains t needle

/-- `g_strrstr(hay, needle) != NULL`: `needle` occurs somewhere in `hay`. -/
def g_strrstr_found (hay needle : String) : Bool :=
  chars_contains hay.toList needle.toList

/-- The outcome the remote `connect` finished with: success, or an error
carrying a message. -/
inductive ConnectResult where
  | ok
  | err (msg : String)
  deriving Repr, DecidableEq

/-- `connect_callback`: runs when the asynchronous connect completes.
Arguments: the service (whose current `cancellable` is inspected), whether
the caller registered a completion callback (`cb != NULL`), and the remote
result.  Returns the updated service, the list of success values the
caller's callback is invoked with, and the list of ids of tokens released
(`g_object_unref`). -/
def connect_callback (service : Service) (cb_present : Bool)
    (res : ConnectResult) : Service × List Bool × List Nat :=
  match service.cancellable with
  | none => (service, if cb_present then [false] else [], [])
  | some tok =>
      if tok.cancelled then
        ({ service with cancellable := none },
         if cb_present then [false] else [], [tok.id])
      else
        let ret : Bool := match res with
          | .ok => true
          | .err msg => g_strrstr_found msg "AlreadyConnected"
        ({ service with cancellable := none },
         if cb_present then [ret] else [], [tok.id])

/-- `peer_connect_callback`: as `connect_callback`, but an error containing
"AlreadyConnected" or "Operation aborted" is remapped to success. -/
def peer_connect_callback (service : Service) (cb_present : Bool)
    (res : ConnectResult) : Service × List Bool × List Nat :=
  match service.cancellable with
  | none => (service, if cb_present then [false] else [], [])
  | some tok =>
      if tok.cancelled then
        ({ service with cancellable := none },
         if cb_present then [false] else [], [tok.id])
      else
        let ret : Bool := match res with
          | .ok => true
          | .err msg => g_strrstr_found msg "AlreadyConnected" ||
                        g_strrstr_found msg "Operation aborted"
        ({ service with cancellable := none },
         if cb_present then [ret] else [], [tok.id])

/-- `connman_service_connect`: NULL service returns FALSE; otherwise it
clears `disconnecting`, stores a fresh (uncancelled) cancellable with
identity `fresh` — without cancelling or releasing any token already there —
and issues the asynchronous connect.  Returns (new state, return value,
remote calls issued). -/
def connman_service_connect (service : Option Service) (fresh : Nat) :
    Option Service × Bool × List RemoteCall :=
  match service with
  | none => (none, false, [])
  | some svc =>
      (some { svc with disconnecting := false,
                       cancellable := some { id := fresh, cancelled := false } },
       true, [.connectCall])

/-- `connman_peer_connect`: same shape as `connman_service_connect`, against
the peer proxy. -/
def connman_peer_connect (service : Option Service) (fresh : Nat) :
    Option Service × Bool × List RemoteCall :=
  match service with
  | none => (none, false, [])
  | some svc =>
      (some { svc with disconnecting := false,
                       cancellable := some { id := fresh, cancelled := false } },
       true, [.peerConnectCall])

/-- **C3.** For a completion that is not cancelled (the service holds an
uncancelled token): a remote error whose message merely *contains*
"AlreadyConnected" makes the callback fire with success = true, both for
services and for peers, and for peers an error containing
"Operation aborted" does too. -/
theorem connect_already_connected_remap (svc : Service) (tok : Token) (msg : String)
    (hc : svc.cancellable = some tok) (hnc : tok.cancelled = false)
    (hm : g_strrstr_found msg "AlreadyConnected" = true) :
    (connect_callback svc true (.err msg)).2.1 = [true] ∧
    (peer_connect_callback svc true (.err msg)).2.1 = [true] ∧
    (∀ msg2, g_strrstr_found msg2 "Operation aborted" = true →
      (peer_connect_callback svc true (.err msg2)).2.1 = [true]) := by
  refine ⟨?_, ?_, ?_⟩
  · simp [connect_callback, hc, hnc, hm]
  · simp [peer_connect_callback, hc, hnc, hm]
  · intro msg2 hm2
    simp [peer_connect_callback, hc, hnc, hm2]

/-- Witness for C3: the daemon's full error text strictly contains
"AlreadyConnected" (it is not equal to it), yet the callback reports
success. -/
theorem connect_already_connected_remap_witness :
    (connect_callback { cancellable := some { id := 7, cancelled := false } } true
        (.err "GDBus.Error:net.connman.Error.AlreadyConnected: Already connected")).2.1
      = [true] ∧
    "GDBus.Error:net.connman.Error.AlreadyConnected: Already connected"
      ≠ "AlreadyConnected" :=
  ⟨(connect_already_connected_remap
      { cancellable := some { id := 7, cancelled := false } } _ _ rfl rfl (by decide)).1,
   by decide⟩

/-- **C4.** If the token is already cancelled — or already null — when the
completion handler runs, the caller's callback is invoked exactly once with
success = false, the remote result is never inspected (any two results give
identical behaviour), the service's cancellable ends up null, and the held
token (if any) is released exactly once. -/
theorem connect_callback_cancelled (svc : Service) (res res' : ConnectResult)
    (h : svc.cancellable = none ∨
         ∃ tok, svc.cancellable = some tok ∧ tok.cancelled = true) :
    connect_callback svc true res = connect_callback svc true res' ∧
    (connect_callback svc true res).2.1 = [false] ∧
    (connect_callback svc true res).1.cancellable = none ∧
    (connect_callback svc true res).2.2
      = (match svc.cancellable with | some t => [t.id] | none => []) := by
  rcases h with h | ⟨tok, h, hcanc⟩
  · refine ⟨?_, ?_, ?_, ?_⟩ <;> simp [connect_callback, h]
  · refine ⟨?_, ?_, ?_, ?_⟩ <;> simp [connect_callback, h, hcanc]

/-- Witness for C4: a cancelled token id 5; the completion reports failure
once, releases token 5 once and nulls the field, whatever the remote said. -/
theorem connect_callback_cancelled_witness :
    connect_callback { cancellable := some { id := 5, cancelled := true } } true .ok
      = connect_callback { cancellable := some { id := 5, cancelled := true } } true
          (.err "whatever") ∧
    (connect_callback { cancellable := some { id := 5, cancelled := true } } true .ok).2.1
      = [false] ∧
    (connect_callback { cancellable := some { id := 5, cancelled := true } } true
        .ok).1.cancellable = none ∧
    (connect_callback { cancellable := some { id := 5, cancelled := true } } true .ok).2.2
      = [5] :=
  connect_callback_cancelled
    { cancellable := some { id := 5, cancelled := true } } .ok (.err "whatever")
    (Or.inr ⟨{ id := 5, cancelled := true }, rfl, rfl⟩)

/-- The success value `connect_callback` reports for an uncancelled
completion: the `connman_interface_service_call_connect_finish` result, with
the "AlreadyConnected" error remapped to success. -/
def connect_finish_ret (res : ConnectResult) : Bool :=
  match res with
  | .ok => true
  | .err msg => g_strrstr_found msg "AlreadyConnected"

/-- **C5, counterexample.** Two `Connect` calls in a row (token ids 1 then
2), then the first connect's completion arrives with a successful remote
result.  The claim predicts the prior connect's completion callback observes
cancellation and is invoked with failure; in the code the completion handler
inspects the service's *current* token — the fresh, uncancelled token 2 —
so it proceeds normally and invokes the callback with success. -/
theorem connect_replacement_counterexample :
    (connman_service_connect (some {}) 1).1
      = some { cancellable := some { id := 1, cancelled := false } } ∧
    (connman_service_connect
        (some { cancellable := some { id := 1, cancelled := false } }) 2).1
      = some { cancellable := some { id := 2, cancelled := false } } ∧
    (connect_callback
        { cancellable := some { id := 2, cancelled := false } } true .ok).2.1
      = [true] ∧
    ([true] : List Bool) ≠ [false] := by
  refine ⟨rfl, rfl, rfl, by decide⟩

/-- **C5, amended.** Calling `Connect` while a connect is already pending
replaces the cancellation token with a fresh uncancelled one, without
cancelling or releasing the prior token.  The prior connect's completion
handler then observes the new, uncancelled token: it is invoked with the
remote result's success value (not necessarily failure), and it releases the
new token, leaving `cancellable` null while the second connect is still in
flight. -/
theorem connect_replaces_pending_token (svc : Service) (tok : Token) (fresh : Nat)
    (h : svc.cancellable = some tok) :
    connman_service_connect (some svc) fresh
      = (some { svc with disconnecting := false,
                         cancellable := some { id := fresh, cancelled := false } },
         true, [.connectCall]) ∧
    (∀ res, (connect_callback
        { svc with disconnecting := false,
                   cancellable := some { id := fresh, cancelled := false } }
        true res).2.1 = [connect_finish_ret res]) ∧
    (∀ res, (connect_callback
        { svc with disconnecting := false,
                   cancellable := some { id := fresh, cancelled := false } }
        true res).1.cancellable = none ∧
      (connect_callback
        { svc with disconnecting := false,
                   cancellable := some { id := fresh, cancelled := false } }
        true res).2.2 = [fresh]) := by
  refine ⟨by simp [connman_service_connect], ?_, ?_⟩
  · intro res
    cases res <;> simp [connect_callback, connect_finish_ret]
  · intro res
    cases res <;> simp [connect_callback]

/-- Witness for the amended C5: token 1 pending, second connect installs
token 2; the first completion then reports the remote success and releases
token 2. -/
theorem connect_replaces_pending_token_witness :
    connman_service_connect
        (some { cancellable := some { id := 1, cancelled := false } }) 2
      = (some { cancellable := some { id := 2, cancelled := false } },
         true, [.connectCall]) ∧
    (connect_callback
        { cancellable := some { id := 2, cancelled := false } } true .ok).2.1
      = [true] := by
  have h := connect_replaces_pending_token
    { cancellable := some { id := 1, cancelled := false } }
    { id := 1, cancelled := false } 2 rfl
  exact ⟨h.1, by simpa [connect_finish_ret] using h.2.1 .ok⟩

/-! ## Property bags (`GVariant` dictionaries) and the BSS decode -/

/-- A GLib variant value, restricted to the shapes the modelled decoders
inspect: strings, 32-bit signed integers (also covering the byte read by
`get_int_val_from_first_element`), string arrays, and nested `a{sv}` bags. -/
inductive GV where
  | str (s : String)
  | int (n : Int)
  | strv (l : List String)
  | bag (l : List (String × GV))

/-- `g_variant_lookup_value(dict, key, G_VARIANT_TYPE_STRING)`: the value
under `key` when it is a string, otherwise NULL. -/
def lookup_value_string (dict : List (String × GV)) (key : String) : Option String :=
  match dict.lookup key with
  | some (.str s) => some s
  | _ => none

/-- `g_variant_lookup_value(dict, key, G_VARIANT_TYPE_INT32)`: the value
under `key` when it is an int32, otherwise NULL. -/
def lookup_value_int (dict : List (String × GV)) (key : String) : Option Int :=
  match dict.lookup key with
  | some (.int n) => some n
  | _ => none

/-- Decode of one BSS entry (the body of the `for` loop of the `BSS` branch):
each of `Id`/`Signal`/`Frequency` is looked up by name and type; a missing
field is logged and defaulted (empty bssid / 0), the entry is built either
way.  `g_strlcpy(bss_info.bssid, bss, 18)` keeps at most 17 characters. -/
def decode_bss_entry (bss_entry : List (String × GV)) : Bssinfo :=
  let bss_v := lookup_value_string bss_entry "Id"
  let signal_v := lookup_value_int bss_entry "Signal"
  let frequency_v := lookup_value_int bss_entry "Frequency"
  { bssid := match bss_v with
      | some bss => String.mk (bss.toList.take 17)
      | none => ""
    signal := signal_v.getD 0
    frequency := frequency_v.getD 0 }

/-- The `BSS` loop: one output element appended per input child (the
per-child wrapper struct is already unwrapped here); no input aborts the
loop. -/
def decode_bss_list : List (List (String × GV)) → List Bssinfo
  | [] => []
  | bss_entry :: rest => decode_bss_entry bss_entry :: decode_bss_list rest

/-- The `BSS` branch of `property_changed_cb` (and, identically, of
`connman_service_update_properties`): the old array is freed and the service
stores the freshly decoded list, whatever was there before. -/
def property_changed_bss (service : Service)
    (va : List (List (String × GV))) : Service :=
  { service with bss := some (decode_bss_list va) }

theorem decode_bss_list_length (entries : List (List (String × GV))) :
    (decode_bss_list entries).length = entries.length := by
  induction entries with
  | nil => rfl
  | cons e t ih => simp [decode_bss_list, ih]

theorem decode_bss_list_getD (entries : List (List (String × GV))) (j : Nat)
    (hj : j < entries.length) :
    (decode_bss_list entries).getD j { bssid := "", signal := 0, frequency := 0 }
      = decode_bss_entry (entries.getD j []) := by
  induction entries generalizing j with
  | nil => exact absurd hj (by simp)
  | cons e t ih =>
      cases j with
      | zero => rfl
      | succ j =>
          simp only [decode_bss_list, List.getD_cons_succ]
          exact ih j (by simpa using hj)

/-- **C8.** A BSS property update fully replaces the stored list with one
decoded entry per input entry, independent of the previous list; an entry
missing the `Id`, `Signal` or `Frequency` sub-field is still present with
that field defaulted to the empty string / 0, and decoding of the remaining
entries continues (the output has exactly the input's length). -/
theorem bss_update_replaces_and_defaults (service : Service)
    (entries : List (List (String × GV))) :
    (property_changed_bss service entries).bss = some (decode_bss_list entries) ∧
    (decode_bss_list entries).length = entries.length ∧
    (∀ j, j < entries.length →
      (decode_bss_list entries).getD j { bssid := "", signal := 0, frequency := 0 }
        = decode_bss_entry (entries.getD j [])) ∧
    (∀ e, lookup_value_int e "Signal" = none → (decode_bss_entry e).signal = 0) ∧
    (∀ e, lookup_value_string e "Id" = none → (decode_bss_entry e).bssid = "") ∧
    (∀ e, lookup_value_int e "Frequency" = none →
      (decode_bss_entry e).frequency = 0) := by
  refine ⟨rfl, decode_bss_list_length entries, decode_bss_list_getD entries,
    ?_, ?_, ?_⟩
  · intro e he
    simp [decode_bss_entry, he]
  · intro e he
    simp [decode_bss_entry, he]
  · intro e he
    simp [decode_bss_entry, he]

/-- Witness for C8: a two-entry bag whose second entry lacks `Signal`; the
stored list has two entries and the second one's signal defaults to 0. -/
theorem bss_update_replaces_and_defaults_witness :
    (property_changed_bss { bss := some [{ bssid := "old", signal := 1, frequency := 2 }] }
        [[("Id", .str "aa:bb"), ("Signal", .int (-40)), ("Frequency", .int 2412)],
         [("Id", .str "cc:dd"), ("Frequency", .int 5180)]]).bss
      = some [{ bssid := "aa:bb", signal := -40, frequency := 2412 },
              { bssid := "cc:dd", signal := 0, frequency := 5180 }] ∧
    (decode_bss_list
        [[("Id", .str "aa:bb"), ("Signal", .int (-40)), ("Frequency", .int 2412)],
         [("Id", .str "cc:dd"), ("Frequency", .int 5180)]]).length = 2 ∧
    (decode_bss_entry [("Id", .str "cc:dd"), ("Frequency", .int 5180)]).signal = 0 := by
  have h := bss_update_replaces_and_defaults
    { bss := some [{ bssid := "old", signal := 1, frequency := 2 }] }
    [[("Id", .str "aa:bb"), ("Signal", .int (-40)), ("Frequency", .int 2412)],
     [("Id", .str "cc:dd"), ("Frequency", .int 5180)]]
  refine ⟨?_, h.2.1, h.2.2.2.1 _ (by rfl)⟩
  rw [h.1]
  rfl

/-! ## Remote Command Façade: synchronous operations -/

/-- `g_variant_dup_string` on a value expected to be a string (the
`update_string_val_from_first_element` helper). -/
def gv_str : GV → Option String
  | .str s => some s
  | _ => none

/-- `get_int_val_from_first_element`: the integer payload of the value. -/
def gv_int : GV → Int
  | .int n => n
  | _ => 0

/-- `g_variant_dup_strv` on a value expected to be a string array. -/
def gv_strv_list : GV → List String
  | .strv l => l
  | _ => []

/-- The `a{sv}` dictionary nested inside a property value. -/
def gv_dict : GV → List (String × GV)
  | .bag l => l
  | _ => []

/-- `connman_service_disconnect`: NULL guard, set `disconnecting`, one
synchronous remote call; an error makes it return FALSE. -/
def connman_service_disconnect (service : Option Service) (err : Option String) :
    Option Service × Bool × List RemoteCall :=
  match service with
  | none => (none, false, [])
  | some svc =>
      (some { svc with disconnecting := true }, err.isNone, [.disconnectCall])

/-- `connman_peer_disconnect`: as the service variant, against the peer proxy. -/
def connman_peer_disconnect (service : Option Service) (err : Option String) :
    Option Service × Bool × List RemoteCall :=
  match service with
  | none => (none, false, [])
  | some svc =>
      (some { svc with disconnecting := true }, err.isNone, [.peerDisconnectCall])

/-- `connman_service_remove`: NULL guard, set `disconnecting`, remove call. -/
def connman_service_remove (service : Option Service) (err : Option String) :
    Option Service × Bool × List RemoteCall :=
  match service with
  | none => (none, false, [])
  | some svc =>
      (some { svc with disconnecting := true }, err.isNone, [.removeCall])

/-- `connman_service_reject_peer`: NULL guard, reject-peer call (note: it
does not touch `disconnecting`). -/
def connman_service_reject_peer (service : Option Service) (err : Option String) :
    Option Service × Bool × List RemoteCall :=
  match service with
  | none => (none, false, [])
  | some svc => (some svc, err.isNone, [.rejectPeerCall])

/-- `connman_service_set_default`: NULL guard, set-default call. -/
def connman_service_set_default (service : Option Service) (err : Option String) :
    Option Service × Bool × List RemoteCall :=
  match service with
  | none => (none, false, [])
  | some svc => (some svc, err.isNone, [.setDefaultCall])

/-- The keys of the sparse `IPv6.Configuration` map built by
`connman_service_set_ipv6`: only present fields are added, and the prefix
length only when it lies in 0..128. -/
def ipv6_config_keys (ipv6 : Ipv6Data) : List String :=
  (if ipv6.method.isSome then ["Method"] else []) ++
  (if ipv6.address.isSome then ["Address"] else []) ++
  (if 0 ≤ ipv6.prefix_length ∧ ipv6.prefix_length ≤ 128 then ["PrefixLength"] else []) ++
  (if ipv6.gateway.isSome then ["Gateway"] else [])

/-- `connman_service_set_ipv6`: NULL service or NULL struct returns FALSE,
otherwise one `SetProperty("IPv6.Configuration", ...)` call. -/
def connman_service_set_ipv6 (service : Option Service) (ipv6 : Option Ipv6Data)
    (err : Option String) : Option Service × Bool × List RemoteCall :=
  match service, ipv6 with
  | none, _ => (none, false, [])
  | some svc, none => (some svc, false, [])
  | some svc, some v =>
      (some svc, err.isNone, [.setPropertyCall "IPv6.Configuration" (ipv6_config_keys v)])

/-- The keys of the sparse `IPv4.Configuration` map built by
`connman_service_set_ipv4`. -/
def ipv4_config_keys (ipv4 : Ipv4Data) : List String :=
  (if ipv4.method.isSome then ["Method"] else []) ++
  (if ipv4.address.isSome then ["Address"] else []) ++
  (if ipv4.netmask.isSome then ["Netmask"] else []) ++
  (if ipv4.gateway.isSome then ["Gateway"] else [])

/-- `connman_service_set_ipv4`: NULL service or NULL struct returns FALSE. -/
def connman_service_set_ipv4 (service : Option Service) (ipv4 : Option Ipv4Data)
    (err : Option String) : Option Service × Bool × List RemoteCall :=
  match service, ipv4 with
  | none, _ => (none, false, [])
  | some svc, none => (some svc, false, [])
  | some svc, some v =>
      (some svc, err.isNone, [.setPropertyCall "IPv4.Configuration" (ipv4_config_keys v)])

/-- The keys of the sparse `Proxy.Configuration` map built by
`connman_service_set_proxy`. -/
def proxy_config_keys (proxyinfo : Proxyinfo) : List String :=
  (if proxyinfo.method.isSome then ["Method"] else []) ++
  (if proxyinfo.url.isSome then ["URL"] else []) ++
  (if proxyinfo.servers.isSome then ["Servers"] else []) ++
  (if proxyinfo.excludes.isSome then ["Excludes"] else [])

/-- `connman_service_set_proxy`: NULL service or NULL struct returns FALSE. -/
def connman_service_set_proxy (service : Option Service) (proxyinfo : Option Proxyinfo)
    (err : Option String) : Option Service × Bool × List RemoteCall :=
  match service, proxyinfo with
  | none, _ => (none, false, [])
  | some svc, none => (some svc, false, [])
  | some svc, some p =>
      (some svc, err.isNone, [.setPropertyCall "Proxy.Configuration" (proxy_config_keys p)])

/-- `connman_service_set_nameservers`: NULL service or NULL array returns
FALSE, otherwise one `SetProperty("Nameservers.Configuration", ...)`. -/
def connman_service_set_nameservers (service : Option Service)
    (dns : Option (List String)) (err : Option String) :
    Option Service × Bool × List RemoteCall :=
  match service, dns with
  | none, _ => (none, false, [])
  | some svc, none => (some svc, false, [])
  | some svc, some _ =>
      (some svc, err.isNone, [.setPropertyCall "Nameservers.Configuration" []])

/-- `connman_service_set_autoconnect`. -/
def connman_service_set_autoconnect (service : Option Service) (value : Bool)
    (err : Option String) : Option Service × Bool × List RemoteCall :=
  match service with
  | none => (none, false, [])
  | some svc => (some svc, err.isNone, [.setPropertyCall "AutoConnect" []])

/-- `connman_service_set_run_online_check`. -/
def connman_service_set_run_online_check (service : Option Service) (value : Bool)
    (err : Option String) : Option Service × Bool × List RemoteCall :=
  match service with
  | none => (none, false, [])
  | some svc => (some svc, err.isNone, [.setPropertyCall "RunOnlineCheck" []])

/-- `connman_service_set_passphrase`. -/
def connman_service_set_passphrase (service : Option Service) (passphrase : String)
    (err : Option String) : Option Service × Bool × List RemoteCall :=
  match service with
  | none => (none, false, [])
  | some svc => (some svc, err.isNone, [.setPropertyCall "Passphrase" []])

/-- `connman_service_fetch_properties`: NULL service returns NULL without a
remote call; otherwise one `GetProperties` call whose bag is returned, or
NULL on remote error. -/
def connman_service_fetch_properties (service : Option Service)
    (reply : Except String (List (String × GV))) :
    Option (List (String × GV)) × List RemoteCall :=
  match service with
  | none => (none, [])
  | some _ =>
      match reply with
      | .error _ => (none, [.getPropertiesCall])
      | .ok properties => (some properties, [.getPropertiesCall])

/-- The `Ethernet` section loop of `connman_service_get_ipinfo`: only the
`Interface` sub-key is consumed. -/
def apply_ipinfo_ethernet (svc : Service) (sections : List (String × GV)) : Service :=
  sections.foldl (fun sv p =>
    if p.1 = "Interface" then
      { sv with ipinfo := { sv.ipinfo with iface := gv_str p.2 } }
    else sv) svc

/-- The `IPv6` section loop of `connman_service_get_ipinfo`. -/
def apply_ipinfo_ipv6 (svc : Service) (sections : List (String × GV)) : Service :=
  sections.foldl (fun sv p =>
    if p.1 = "Method" then
      { sv with ipinfo := { sv.ipinfo with
          ipv6 := { sv.ipinfo.ipv6 with method := gv_str p.2 } } }
    else if p.1 = "PrefixLength" then
      { sv with ipinfo := { sv.ipinfo with
          ipv6 := { sv.ipinfo.ipv6 with prefix_length := gv_int p.2 } } }
    else if p.1 = "Address" then
      { sv with ipinfo := { sv.ipinfo with
          ipv6 := { sv.ipinfo.ipv6 with address := gv_str p.2 } } }
    else if p.1 = "Gateway" then
      { sv with ipinfo := { sv.ipinfo with
          ipv6 := { sv.ipinfo.ipv6 with gateway := gv_str p.2 } } }
    else sv) svc

/-- The `IPv4` section loop of `connman_service_get_ipinfo`. -/
def apply_ipinfo_ipv4 (svc : Service) (sections : List (String × GV)) : Service :=
  sections.foldl (fun sv p =>
    if p.1 = "Method" then
      { sv with ipinfo := { sv.ipinfo with
          ipv4 := { sv.ipinfo.ipv4 with method := gv_str p.2 } } }
    else if p.1 = "PrefixLength" then
      { sv with ipinfo := { sv.ipinfo with
          ipv4 := { sv.ipinfo.ipv4 with prefix_len := gv_int p.2 } } }
    else if p.1 = "Netmask" then
      { sv with ipinfo := { sv.ipinfo with
          ipv4 := { sv.ipinfo.ipv4 with netmask := gv_str p.2 } } }
    else if p.1 = "Address" then
      { sv with ipinfo := { sv.ipinfo with
          ipv4 := { sv.ipinfo.ipv4 with address := gv_str p.2 } } }
    else if p.1 = "Gateway" then
      { sv with ipinfo := { sv.ipinfo with
          ipv4 := { sv.ipinfo.ipv4 with gateway := gv_str p.2 } } }
    else sv) svc

/-- `connman_service_get_ipinfo`: NULL guard, snapshot fetch, then the
nested-bag decode of the `Ethernet` / `IPv6` / `IPv4` / `Nameservers`
properties into `ipinfo`. -/
def connman_service_get_ipinfo (service : Option Service)
    (reply : Except String (List (String × GV))) :
    Option Service × Bool × List RemoteCall :=
  match service with
  | none => (none, false, [])
  | some svc =>
      match reply with
      | .error _ => (some svc, false, [.getPropertiesCall])
      | .ok properties =>
          let svc := properties.foldl (fun sv p =>
            let sv := if p.1 = "Ethernet" then apply_ipinfo_ethernet sv (gv_dict p.2) else sv
            let sv := if p.1 = "IPv6" then apply_ipinfo_ipv6 sv (gv_dict p.2) else sv
            let sv := if p.1 = "IPv4" then apply_ipinfo_ipv4 sv (gv_dict p.2) else sv
            if p.1 = "Nameservers" then
              { sv with ipinfo := { sv.ipinfo with dns := some (gv_strv_list p.2) } }
            else sv) svc
          (some svc, true, [.getPropertiesCall])

/-- The `Proxy` section loop of `connman_service_get_proxyinfo`. -/
def apply_proxyinfo_section (svc : Service) (sections : List (String × GV)) : Service :=
  sections.foldl (fun sv p =>
    if p.1 = "Method" then
      { sv with proxyinfo := { sv.proxyinfo with method := gv_str p.2 } }
    else if p.1 = "URL" then
      { sv with proxyinfo := { sv.proxyinfo with url := gv_str p.2 } }
    else if p.1 = "Servers" then
      { sv with proxyinfo := { sv.proxyinfo with servers := some (gv_strv_list p.2) } }
    else if p.1 = "Excludes" then
      { sv with proxyinfo := { sv.proxyinfo with excludes := some (gv_strv_list p.2) } }
    else sv) svc

/-- `connman_service_get_proxyinfo`: NULL guard, snapshot fetch, decode of
the `Proxy` property into `proxyinfo`. -/
def connman_service_get_proxyinfo (service : Option Service)
    (reply : Except String (List (String × GV))) :
    Option Service × Bool × List RemoteCall :=
  match service with
  | none => (none, false, [])
  | some svc =>
      match reply with
      | .error _ => (some svc, false, [.getPropertiesCall])
      | .ok properties =>
          let svc := properties.foldl (fun sv p =>
            if p.1 = "Proxy" then apply_proxyinfo_section sv (gv_dict p.2)
            else sv) svc
          (some svc, true, [.getPropertiesCall])

/-- **C10.** Every Remote Command Façade operation invoked with a NULL
service pointer returns FALSE (NULL for `fetch_properties`), issues no
remote call, and mutates no state, whatever the other arguments are. -/
theorem null_service_guards (fresh : Nat) (err : Option String)
    (v4 : Option Ipv4Data) (v6 : Option Ipv6Data) (px : Option Proxyinfo)
    (dns : Option (List String)) (b : Bool) (pass : String)
    (reply : Except String (List (String × GV))) :
    connman_service_connect none fresh = (none, false, []) ∧
    connman_peer_connect none fresh = (none, false, []) ∧
    connman_service_disconnect none err = (none, false, []) ∧
    connman_peer_disconnect none err = (none, false, []) ∧
    connman_service_remove none err = (none, false, []) ∧
    connman_service_reject_peer none err = (none, false, []) ∧
    connman_service_set_default none err = (none, false, []) ∧
    connman_service_set_ipv4 none v4 err = (none, false, []) ∧
    connman_service_set_ipv6 none v6 err = (none, false, []) ∧
    connman_service_set_proxy none px err = (none, false, []) ∧
    connman_service_set_nameservers none dns err = (none, false, []) ∧
    connman_service_set_autoconnect none b err = (none, false, []) ∧
    connman_service_set_run_online_check none b err = (none, false, []) ∧
    connman_service_set_passphrase none pass err = (none, false, []) ∧
    connman_service_fetch_properties none reply = (none, []) ∧
    connman_service_get_ipinfo none reply = (none, false, []) ∧
    connman_service_get_proxyinfo none reply = (none, false, []) := by
  refine ⟨rfl, rfl, rfl, rfl, rfl, rfl, rfl, ?_, ?_, ?_, ?_, rfl, rfl, rfl, rfl, rfl, rfl⟩
  · cases v4 <;> rfl
  · cases v6 <;> rfl
  · cases px <;> rfl
  · cases dns <;> rfl
